import Mathlib

/-!
Verification of `AppServer/google/appengine/api/search/appscale_search_stub.py`,
the AppScale Search API stub.  The stub forwards the five SearchService RPCs to
an external datastore server over an encrypted channel and keeps a small
two-level cache of index handles (namespace, then index name), optionally
persisted to a local file.

This file is a shallow embedding of that module.  Protobuf messages are
modelled by their encoded payloads, the network by an oracle function
(`Channel`), the filesystem by an association list, and Python exceptions by
the explicit `PyError` type carried in an `Except` result.  Two facts of the
Python source are modelled explicitly because they decide several claims:

* `_RemoteSend` reads `self.__datastore_location`, which under Python name
  mangling is the attribute `_SearchServiceStub__datastore_location`; no code
  in the class ever assigns it, so the constructor leaves it absent.  We model
  the attribute as `Option String`, set to `none` by the constructor, and the
  read of a missing attribute as an `AttributeError`.

* the module never imports `pickle` and never imports `datastore_errors`, so
  `pickle.load`, `pickle.PickleError` (in the `except` tuple of
  `_ReadFromFile`) and `datastore_errors.InternalError` (in `_RemoteSend`)
  each raise `NameError` when evaluated.  In `_ReadFromFile`, any exception in
  the `try` block makes Python evaluate the `except` tuple, whose
  `pickle.PickleError` element itself raises `NameError`; that `NameError`
  propagates (the `finally` block still releases the lock).
-/

set_option autoImplicit false

/-- Where the SSL certificate is placed for encrypted communication. -/
def CERT_LOCATION : String := "/etc/appscale/certs/mycert.pem"

/-- Where the SSL private key is placed for encrypted communication. -/
def KEY_LOCATION : String := "/etc/appscale/certs/mykey.pem"

/-- A protobuf message, modelled by its encoded payload bytes. -/
structure Message where
  data : List Nat
deriving DecidableEq

/-- `request.Encode()`: serialize a message to its payload bytes. -/
def Message.Encode (m : Message) : List Nat := m.data

/-- `response.ParseFromString(bytes)`: the message whose contents are the
parse of the given bytes. -/
def Message.ParseFromString (bytes : List Nat) : Message := ⟨bytes⟩

/-- `remote_api_pb.Request` as filled in by `_RemoteSend`: method name,
service name, and the encoded payload of the local request. -/
structure RemoteApiRequest where
  method : String
  service_name : String
  request : List Nat
deriving DecidableEq

/-- `remote_api_pb.Response`: the server reply.  `response` is the payload
(`has_response`/`response()`), `application_error` carries a code and a
detail string, `exception` a serialized exception. -/
structure RemoteApiResponse where
  response : Option (List Nat)
  application_error : Option (Nat × String)
  exception : Option String
deriving DecidableEq

/-- The argument tuple of `api_request.sendCommand(...)` other than the
response object: location, the empty tag string, the retry count `1`, the
flag `False`, and the key and certificate file paths. -/
structure SendArgs where
  location : String
  tag : String
  retries : Nat
  flag : Bool
  key_location : String
  cert_location : String
deriving DecidableEq

/-- The network, as an oracle: what reply (if any) the external server
returns for a given remote-API request sent with the given arguments.
`none` models `sendCommand` producing no usable reply object. -/
abbrev Channel := RemoteApiRequest → SendArgs → Option RemoteApiResponse

/-- Python exceptions that the modelled code can raise. -/
inductive PyError where
  | attributeError (name : String)
  | nameError (name : String)
  | applicationError (code : Nat) (detail : String)
  | remoteException (e : String)
deriving DecidableEq

/-- `search_service_pb.IndexSpec`, restricted to the two accessors this
module uses: `name()` and `namespace()` (the latter possibly unset). -/
structure IndexSpec where
  name : String
  «namespace» : Option String
deriving DecidableEq

/-- `simple_search_stub.SimpleIndex`, as used here: a handle constructed
from an index spec. -/
structure SimpleIndex where
  index_spec : IndexSpec
deriving DecidableEq

/-- The two-level cache `self.__indexes`: namespace, then index name. -/
abbrev IndexMap := List (String × List (String × SimpleIndex))

/-- The local filesystem: file path to content, where content is the
`(version, indexes)` pair a pickled index file would hold. -/
abbrev FS := List (String × (Nat × IndexMap))

/-- Association-list lookup (Python `dict.get`). -/
def lookupA {α : Type} : List (String × α) → String → Option α
  | [], _ => none
  | (k, v) :: rest, key => if k = key then some v else lookupA rest key

/-- Association-list update (Python `dict[key] = value`): replace the
binding if the key is present, otherwise append it. -/
def insertA {α : Type} : List (String × α) → String → α → List (String × α)
  | [], key, v => [(key, v)]
  | (k, w) :: rest, key, v =>
    if k = key then (k, v) :: rest else (k, w) :: insertA rest key v

/-- `os.path.isfile` over the modelled filesystem. -/
def fileExists (fs : FS) (f : String) : Bool := (lookupA fs f).isSome

/-- Python truthiness of `self.__index_file`: falsy when `None` or `""`. -/
def truthy : Option String → Bool
  | none => false
  | some s => !s.isEmpty

/-- The state of a `SearchServiceStub` instance.  `datastore_location`
models the name-mangled attribute `_SearchServiceStub__datastore_location`,
which no code in the class ever assigns: it is `none` (absent) on every
instance the constructor produces, and reading it while absent raises
`AttributeError`. -/
structure SearchServiceStub where
  indexes : IndexMap
  index_file : Option String
  service_name : String
  datastore_location : Option String
deriving DecidableEq

/-- `SearchServiceStub._VERSION`. -/
def SearchServiceStub._VERSION : Nat := 1

/-- `_GetNamespace`: the namespace from the request if it is not `None`,
otherwise the current global namespace (`namespace_manager.get_namespace()`,
passed in as `current_ns`). -/
def SearchServiceStub._GetNamespace (current_ns : String) (ns : Option String) : String :=
  match ns with
  | some n => n
  | none => current_ns

/-- `_GetIndex`: resolve the namespace, `setdefault` the inner dict, look up
the index name; with `create` a missing entry is created as a
`SimpleIndex(index_spec)` and stored.  Returns the handle found (if any)
and the updated cache. -/
def SearchServiceStub._GetIndex (indexes : IndexMap) (current_ns : String)
    (index_spec : IndexSpec) (create : Bool) : Option SimpleIndex × IndexMap :=
  let ns := SearchServiceStub._GetNamespace current_ns index_spec.«namespace»
  let inner := (lookupA indexes ns).getD []
  let indexes1 := if (lookupA indexes ns).isSome then indexes else insertA indexes ns []
  match lookupA inner index_spec.name with
  | some index => (some index, indexes1)
  | none =>
    if create then
      let index : SimpleIndex := ⟨index_spec⟩
      (some index, insertA indexes1 ns (insertA inner index_spec.name index))
    else
      (none, indexes1)

/-- The `remote_api_pb.Request` that `_RemoteSend` builds: the given method
name, service name `"search"`, and the encoded local request as payload. -/
def buildApiRequest (request : Message) (method : String) : RemoteApiRequest :=
  { method := method, service_name := "search", request := request.Encode }

/-- The argument tuple `_RemoteSend` passes to `sendCommand`: the datastore
location, `""`, retry count `1`, `False`, `KEY_LOCATION`, `CERT_LOCATION`. -/
def buildSendArgs (loc : String) : SendArgs :=
  { location := loc, tag := "", retries := 1, flag := false,
    key_location := KEY_LOCATION, cert_location := CERT_LOCATION }

/-- `_RemoteSend`: build the remote-API request, send it over the channel,
and fill the local response from the reply payload.  Reading the absent
attribute `self.__datastore_location` raises `AttributeError` before the
channel is used; an absent reply or a reply without payload reaches
`raise datastore_errors.InternalError(...)`, which raises `NameError`
because `datastore_errors` is never imported; an application error raises
`ApplicationError(code, detail)`; a carried exception is raised.  The
returned message is the (possibly mutated) local response. -/
def SearchServiceStub._RemoteSend (st : SearchServiceStub) (net : Channel)
    (request response : Message) (method : String) : Except PyError Unit × Message :=
  let api_request := buildApiRequest request method
  match st.datastore_location with
  | none =>
    (Except.error (PyError.attributeError "_SearchServiceStub__datastore_location"), response)
  | some loc =>
    match net api_request (buildSendArgs loc) with
    | none => (Except.error (PyError.nameError "datastore_errors"), response)
    | some api_response =>
      match api_response.response with
      | none => (Except.error (PyError.nameError "datastore_errors"), response)
      | some payload =>
        match api_response.application_error with
        | some ae => (Except.error (PyError.applicationError ae.1 ae.2), response)
        | none =>
          match api_response.exception with
          | some e => (Except.error (PyError.remoteException e), response)
          | none => (Except.ok (), Message.ParseFromString payload)

/-- The common shape of the five `_Dynamic_` service methods. -/
abbrev Operation := SearchServiceStub → Channel → Message → Message → Except PyError Unit × Message

/-- `_Dynamic_IndexDocument`. -/
def SearchServiceStub._Dynamic_IndexDocument : Operation :=
  fun st net request response => st._RemoteSend net request response "IndexDocument"

/-- `_Dynamic_DeleteDocument`. -/
def SearchServiceStub._Dynamic_DeleteDocument : Operation :=
  fun st net request response => st._RemoteSend net request response "DeleteDocument"

/-- `_Dynamic_ListIndexes`. -/
def SearchServiceStub._Dynamic_ListIndexes : Operation :=
  fun st net request response => st._RemoteSend net request response "ListIndexes"

/-- `_Dynamic_ListDocuments`. -/
def SearchServiceStub._Dynamic_ListDocuments : Operation :=
  fun st net request response => st._RemoteSend net request response "ListDocuments"

/-- `_Dynamic_Search`. -/
def SearchServiceStub._Dynamic_Search : Operation :=
  fun st net request response => st._RemoteSend net request response "Search"

/-- The method names for which the class defines a `_Dynamic_` handler. -/
def dynamicMethods : List String :=
  ["IndexDocument", "DeleteDocument", "ListIndexes", "ListDocuments", "Search"]

/-- The dispatch table of externally invocable operations: the apiproxy
framework resolves a call of method `m` to the class attribute
`_Dynamic_<m>`, and the class body defines exactly these five. -/
def dynamicOperation : String → Option Operation
  | "IndexDocument" => some SearchServiceStub._Dynamic_IndexDocument
  | "DeleteDocument" => some SearchServiceStub._Dynamic_DeleteDocument
  | "ListIndexes" => some SearchServiceStub._Dynamic_ListIndexes
  | "ListDocuments" => some SearchServiceStub._Dynamic_ListDocuments
  | "Search" => some SearchServiceStub._Dynamic_Search
  | _ => none

/-- `Write`: documented and implemented as a no-op (`return`); the
filesystem is unchanged. -/
def SearchServiceStub.Write (st : SearchServiceStub) (fs : FS) : FS := fs

/-- Following the spec words for the refinement comparison of `Write`:
"persists the in-process index cache to that local file" — saving the
current `(_VERSION, indexes)` pair under `index_file`. -/
def WriteAsSpecified (st : SearchServiceStub) (fs : FS) : FS :=
  match st.index_file with
  | some f => insertA fs f (SearchServiceStub._VERSION, st.indexes)
  | none => fs

/-- `_ReadFromFile`: acquire the lock and read the index file.  If the file
exists, `pickle.load` is evaluated and raises `NameError` (the module never
imports `pickle`); evaluating the `except` tuple raises `NameError` again
at `pickle.PickleError`, so the exception escapes.  If `index_file` is
`None`, `os.path.isfile(None)` raises `TypeError` inside the `try` block
and the same broken `except` tuple turns it into an escaping `NameError`.
If the file does not exist, a warning is logged and `{}` is returned.  The
`finally` block releases the lock on every path; the returned `Bool` is the
lock state on exit (`false` = released). -/
def SearchServiceStub._ReadFromFile (st : SearchServiceStub) (fs : FS) :
    Except PyError IndexMap × Bool :=
  match st.index_file with
  | none => (Except.error (PyError.nameError "pickle"), false)
  | some f =>
    if fileExists fs f then (Except.error (PyError.nameError "pickle"), false)
    else (Except.ok [], false)

/-- `Read`: a no-op when `index_file` is falsy; otherwise read from the
file and replace the cache only when the loaded mapping is non-empty.  The
returned `Bool` is the lock state on exit. -/
def SearchServiceStub.Read (st : SearchServiceStub) (fs : FS) :
    Except PyError SearchServiceStub × Bool :=
  if truthy st.index_file = false then (Except.ok st, false)
  else
    match st._ReadFromFile fs with
    | (Except.error e, lock) => (Except.error e, lock)
    | (Except.ok read_indexes, lock) =>
      if read_indexes.isEmpty then (Except.ok st, lock)
      else (Except.ok { st with indexes := read_indexes }, lock)

/-- The constructor: set an empty cache, record `index_file`, leave the
name-mangled `__datastore_location` attribute unassigned, call the parent
constructor with `service_name`, then call `Read()`.  The returned `Bool`
is the lock state on exit. -/
def SearchServiceStub.init (service_name : String) (index_file : Option String)
    (fs : FS) : Except PyError SearchServiceStub × Bool :=
  let st : SearchServiceStub :=
    { indexes := [], index_file := index_file, service_name := service_name,
      datastore_location := none }
  st.Read fs

/-- The stub produced by `SearchServiceStub('search', None)`. -/
def stub0 : SearchServiceStub :=
  { indexes := [], index_file := none, service_name := "search",
    datastore_location := none }

/-- A channel that never produces a reply. -/
def netNone : Channel := fun _ _ => none

/-- A concrete request and response message for witnesses. -/
def req0 : Message := ⟨[7, 7, 7]⟩

/-- A concrete response message for witnesses. -/
def resp0 : Message := ⟨[]⟩

/-- A stub state whose datastore location attribute is (counterfactually)
present, used to exercise the code paths of `_RemoteSend` past the
attribute read. -/
def st1 : SearchServiceStub :=
  { indexes := [], index_file := none, service_name := "search",
    datastore_location := some "appscale-host:8888" }

/-- A server reply carrying a clean payload. -/
def reply0 : RemoteApiResponse :=
  { response := some [1, 2, 3], application_error := none, exception := none }

/-- A channel that always returns `reply0`. -/
def netReply : Channel := fun _ _ => some reply0

/-- A stub with a populated cache and an index file, for the `Write`
counterexample. -/
def stubWithIndexes : SearchServiceStub :=
  { indexes := [("gamens", [("products", ⟨⟨"products", some "gamens"⟩⟩)])],
    index_file := some "search_index", service_name := "search",
    datastore_location := none }

theorem lookupA_insertA_self {α : Type} (l : List (String × α)) (k : String) (v : α) :
    lookupA (insertA l k v) k = some v := by
  induction l with
  | nil => simp [insertA, lookupA]
  | cons hd tl ih =>
    obtain ⟨k2, w⟩ := hd
    by_cases h : k2 = k
    · simp [insertA, h, lookupA]
    · simp [insertA, h, lookupA, ih]

theorem init_ok_datastore_location (sn : String) (idx : Option String) (fs : FS)
    (st : SearchServiceStub) (b : Bool)
    (h : SearchServiceStub.init sn idx fs = (Except.ok st, b)) :
    st.datastore_location = none := by
  unfold SearchServiceStub.init SearchServiceStub.Read SearchServiceStub._ReadFromFile at h
  dsimp only at h
  split at h
  · simp only [Prod.mk.injEq, Except.ok.injEq] at h
    obtain ⟨h1, -⟩ := h
    subst h1
    rfl
  · split at h
    · simp at h
    · split at h
      · simp only [Prod.mk.injEq, Except.ok.injEq] at h
        obtain ⟨h1, -⟩ := h
        subst h1
        rfl
      · simp only [Prod.mk.injEq, Except.ok.injEq] at h
        obtain ⟨h1, -⟩ := h
        subst h1
        rfl

theorem remoteSend_no_location (st : SearchServiceStub) (net : Channel)
    (req resp : Message) (m : String) (hd : st.datastore_location = none) :
    st._RemoteSend net req resp m =
      (Except.error (PyError.attributeError "_SearchServiceStub__datastore_location"), resp) := by
  simp [SearchServiceStub._RemoteSend, hd]

/-- C1: the intended behavior is that each operation builds a remote-API
request with service name `"search"`, the operation's method name and the
encoded local request, sends it over the encrypted channel and fills the
local response from the reply; evaluated on the stub the constructor
actually produces, every operation instead fails with `AttributeError` on
the never-assigned `_SearchServiceStub__datastore_location`, for every
channel, before anything is sent. -/
theorem forwarding_fails_on_missing_attribute :
    (SearchServiceStub.init "search" none []).1 = Except.ok stub0 ∧
    ∀ (net : Channel) (req resp : Message),
      SearchServiceStub._Dynamic_IndexDocument stub0 net req resp =
        (Except.error (PyError.attributeError "_SearchServiceStub__datastore_location"), resp) ∧
      SearchServiceStub._Dynamic_DeleteDocument stub0 net req resp =
        (Except.error (PyError.attributeError "_SearchServiceStub__datastore_location"), resp) ∧
      SearchServiceStub._Dynamic_ListIndexes stub0 net req resp =
        (Except.error (PyError.attributeError "_SearchServiceStub__datastore_location"), resp) ∧
      SearchServiceStub._Dynamic_ListDocuments stub0 net req resp =
        (Except.error (PyError.attributeError "_SearchServiceStub__datastore_location"), resp) ∧
      SearchServiceStub._Dynamic_Search stub0 net req resp =
        (Except.error (PyError.attributeError "_SearchServiceStub__datastore_location"), resp) :=
  ⟨rfl, fun _ _ _ => ⟨rfl, rfl, rfl, rfl, rfl⟩⟩

/-- C2: the class exposes exactly five externally invocable operations,
and each `_Dynamic_` method is the shared round-trip function `_RemoteSend`
applied to its own method name; the five differ only in the method
string. -/
theorem dynamic_ops_are_remoteSend :
    dynamicMethods = ["IndexDocument", "DeleteDocument", "ListIndexes", "ListDocuments", "Search"] ∧
    (∀ m : String, (dynamicOperation m).isSome ↔ m ∈ dynamicMethods) ∧
    dynamicOperation "IndexDocument" = some SearchServiceStub._Dynamic_IndexDocument ∧
    dynamicOperation "DeleteDocument" = some SearchServiceStub._Dynamic_DeleteDocument ∧
    dynamicOperation "ListIndexes" = some SearchServiceStub._Dynamic_ListIndexes ∧
    dynamicOperation "ListDocuments" = some SearchServiceStub._Dynamic_ListDocuments ∧
    dynamicOperation "Search" = some SearchServiceStub._Dynamic_Search ∧
    ∀ (m : String) (op : Operation), dynamicOperation m = some op →
      ∀ (st : SearchServiceStub) (net : Channel) (req resp : Message),
        op st net req resp = st._RemoteSend net req resp m := by
  refine ⟨rfl, ?_, rfl, rfl, rfl, rfl, rfl, ?_⟩
  · intro m
    unfold dynamicOperation dynamicMethods
    split <;> simp_all
  · intro m op hop st net req resp
    unfold dynamicOperation at hop
    split at hop
    · injection hop with h; subst h; rfl
    · injection hop with h; subst h; rfl
    · injection hop with h; subst h; rfl
    · injection hop with h; subst h; rfl
    · injection hop with h; subst h; rfl
    · exact Option.noConfusion hop

/-- Witness for C2 at the method `"Search"` on concrete inputs. -/
theorem dynamic_ops_are_remoteSend_witness :
    dynamicOperation "Search" = some SearchServiceStub._Dynamic_Search ∧
    SearchServiceStub._Dynamic_Search stub0 netNone req0 resp0 =
      stub0._RemoteSend netNone req0 resp0 "Search" :=
  ⟨rfl, dynamic_ops_are_remoteSend.2.2.2.2.2.2.2 "Search"
      SearchServiceStub._Dynamic_Search rfl stub0 netNone req0 resp0⟩

/-- C3: every stub the constructor successfully produces has the
name-mangled datastore-location attribute absent, so each of the five
operations raises `AttributeError` before any data is sent: the outcome is
the same for every channel and the local response is untouched. -/
theorem ops_raise_attributeError_before_send
    (idx : Option String) (fs : FS) (st : SearchServiceStub) (b : Bool)
    (hinit : SearchServiceStub.init "search" idx fs = (Except.ok st, b)) :
    ∀ (m : String) (op : Operation), dynamicOperation m = some op →
      ∀ (net net2 : Channel) (req resp : Message),
        op st net req resp =
          (Except.error (PyError.attributeError "_SearchServiceStub__datastore_location"), resp) ∧
        op st net req resp = op st net2 req resp := by
  have hd : st.datastore_location = none := init_ok_datastore_location _ _ _ _ _ hinit
  intro m op hop net net2 req resp
  unfold dynamicOperation at hop
  split at hop
  rotate_right
  · exact Option.noConfusion hop
  all_goals injection hop with h
  all_goals subst h
  all_goals
    exact ⟨remoteSend_no_location st net req resp _ hd,
      (remoteSend_no_location st net req resp _ hd).trans
        (remoteSend_no_location st net2 req resp _ hd).symm⟩

/-- Witness for C3: the stub built with no index file, at the `Search`
operation on concrete inputs. -/
theorem ops_raise_attributeError_before_send_witness :
    SearchServiceStub.init "search" none [] = (Except.ok stub0, false) ∧
    SearchServiceStub._Dynamic_Search stub0 netNone req0 resp0 =
      (Except.error (PyError.attributeError "_SearchServiceStub__datastore_location"), resp0) :=
  ⟨rfl, (ops_raise_attributeError_before_send none [] stub0 false rfl "Search"
      SearchServiceStub._Dynamic_Search rfl netNone netReply req0 resp0).1⟩

/-- C4 counterexample: on a stub constructed with a non-None index file and
a populated cache, `Write` leaves the filesystem unchanged instead of
saving the indexes to the file, so it differs from the spec behavior. -/
theorem write_does_not_persist_counterexample :
    SearchServiceStub.Write stubWithIndexes [] = [] ∧
    SearchServiceStub.Write stubWithIndexes [] ≠ WriteAsSpecified stubWithIndexes [] :=
  ⟨rfl, by simp [SearchServiceStub.Write, WriteAsSpecified, stubWithIndexes, insertA]⟩

/-- C4 (amended): `Write` is a no-op for every stub and every filesystem —
it never persists the index cache, even when `index_file` is non-None; its
own docstring says "This method is a no-op." -/
theorem write_is_noop :
    ∀ (st : SearchServiceStub) (fs : FS), st.Write fs = fs :=
  fun _ _ => rfl

/-- C5: evaluating the code at the failing input — a stub whose index file
exists on disk.  `Read` calls `_ReadFromFile`, where `pickle.load` raises
`NameError` (the module never imports `pickle`) and the `except` tuple
itself raises `NameError` at `pickle.PickleError`, so instead of the
claimed "handled unpickling error yields `{}` and the previous cache is
kept", `Read` propagates `NameError`. -/
theorem read_existing_file_raises_nameError :
    SearchServiceStub.Read
      { indexes := [], index_file := some "search_index",
        service_name := "search", datastore_location := none }
      [("search_index", (1, []))] =
    (Except.error (PyError.nameError "pickle"), false) := by
  rfl

/-- C8: constructing the stub with an index file that names an existing
file raises `NameError` (from the never-imported `pickle`) instead of
loading the cache or falling back to `{}`; the lock is released on exit
(second component `false`). -/
theorem init_existing_index_file_raises_nameError (f : String) (fs : FS)
    (hne : f ≠ "") (hex : fileExists fs f = true) :
    SearchServiceStub.init "search" (some f) fs =
      (Except.error (PyError.nameError "pickle"), false) := by
  have hf : f.isEmpty = false := by
    rcases h : f.isEmpty with _ | _
    · rfl
    · exact absurd ((String.isEmpty_iff f).mp h) hne
  unfold SearchServiceStub.init SearchServiceStub.Read SearchServiceStub._ReadFromFile
  simp [truthy, hf, hex]

/-- Witness for C8 at a concrete file name and filesystem. -/
theorem init_existing_index_file_raises_nameError_witness :
    ("search_index" ≠ "" ∧
      fileExists [("search_index", (1, []))] "search_index" = true) ∧
    SearchServiceStub.init "search" (some "search_index") [("search_index", (1, []))] =
      (Except.error (PyError.nameError "pickle"), false) :=
  ⟨⟨by decide, by decide⟩,
    init_existing_index_file_raises_nameError "search_index"
      [("search_index", (1, []))] (by decide) (by decide)⟩

theorem remoteSend_clean_reply (st : SearchServiceStub) (net : Channel)
    (req resp : Message) (m loc : String) (reply : RemoteApiResponse)
    (payload : List Nat)
    (hloc : st.datastore_location = some loc)
    (hnet : net (buildApiRequest req m) (buildSendArgs loc) = some reply)
    (hresp : reply.response = some payload)
    (happ : reply.application_error = none)
    (hexc : reply.exception = none) :
    st._RemoteSend net req resp m = (Except.ok (), Message.ParseFromString payload) := by
  simp only [SearchServiceStub._RemoteSend, hloc, hnet, hresp, happ, hexc]

/-- C7: each operation applies no search logic of its own — when the round
trip succeeds, the request sent is exactly the encoded local request (via
`buildApiRequest`) and the local response afterwards is exactly the parse
of the payload bytes the remote server returned. -/
theorem ops_fill_response_from_reply
    (st : SearchServiceStub) (net : Channel) (req resp : Message)
    (m loc : String) (op : Operation) (reply : RemoteApiResponse)
    (payload : List Nat)
    (hop : dynamicOperation m = some op)
    (hloc : st.datastore_location = some loc)
    (hnet : net (buildApiRequest req m) (buildSendArgs loc) = some reply)
    (hresp : reply.response = some payload)
    (happ : reply.application_error = none)
    (hexc : reply.exception = none) :
    op st net req resp = (Except.ok (), Message.ParseFromString payload) := by
  unfold dynamicOperation at hop
  split at hop
  rotate_right
  · exact Option.noConfusion hop
  all_goals injection hop with h
  all_goals subst h
  all_goals exact remoteSend_clean_reply st net req resp _ loc reply payload hloc hnet hresp happ hexc

/-- Witness for C7: the `Search` operation on a stub whose datastore
location is present, with a channel returning a clean reply. -/
theorem ops_fill_response_from_reply_witness :
    (dynamicOperation "Search" = some SearchServiceStub._Dynamic_Search ∧
      st1.datastore_location = some "appscale-host:8888" ∧
      netReply (buildApiRequest req0 "Search") (buildSendArgs "appscale-host:8888") = some reply0 ∧
      reply0.response = some [1, 2, 3] ∧
      reply0.application_error = none ∧
      reply0.exception = none) ∧
    SearchServiceStub._Dynamic_Search st1 netReply req0 resp0 =
      (Except.ok (), Message.ParseFromString [1, 2, 3]) :=
  ⟨⟨rfl, rfl, rfl, rfl, rfl, rfl⟩,
    ops_fill_response_from_reply st1 netReply req0 resp0 "Search" "appscale-host:8888"
      SearchServiceStub._Dynamic_Search reply0 [1, 2, 3] rfl rfl rfl rfl rfl rfl⟩

/-- C9: `_RemoteSend` mutates the local response only on success.  With the
datastore location present: an absent reply raises `NameError` (the
intended `datastore_errors.InternalError` is a name that was never
imported); a reply without payload does the same; a reply with an
application error raises `ApplicationError` with the server's code and
detail; a reply carrying an exception raises it.  In all four failure
cases the returned local response is exactly the one passed in. -/
theorem remoteSend_failure_leaves_response
    (st : SearchServiceStub) (net : Channel) (req resp : Message)
    (m loc : String)
    (hloc : st.datastore_location = some loc) :
    (net (buildApiRequest req m) (buildSendArgs loc) = none →
      st._RemoteSend net req resp m =
        (Except.error (PyError.nameError "datastore_errors"), resp)) ∧
    (∀ reply : RemoteApiResponse,
      net (buildApiRequest req m) (buildSendArgs loc) = some reply →
      reply.response = none →
      st._RemoteSend net req resp m =
        (Except.error (PyError.nameError "datastore_errors"), resp)) ∧
    (∀ (reply : RemoteApiResponse) (payload : List Nat) (code : Nat) (detail : String),
      net (buildApiRequest req m) (buildSendArgs loc) = some reply →
      reply.response = some payload →
      reply.application_error = some (code, detail) →
      st._RemoteSend net req resp m =
        (Except.error (PyError.applicationError code detail), resp)) ∧
    (∀ (reply : RemoteApiResponse) (payload : List Nat) (e : String),
      net (buildApiRequest req m) (buildSendArgs loc) = some reply →
      reply.response = some payload →
      reply.application_error = none →
      reply.exception = some e →
      st._RemoteSend net req resp m =
        (Except.error (PyError.remoteException e), resp)) := by
  refine ⟨?_, ?_, ?_, ?_⟩
  · intro hnet
    simp only [SearchServiceStub._RemoteSend, hloc, hnet]
  · intro reply hnet hresp
    simp only [SearchServiceStub._RemoteSend, hloc, hnet, hresp]
  · intro reply payload code detail hnet hresp happ
    simp only [SearchServiceStub._RemoteSend, hloc, hnet, hresp, happ]
  · intro reply payload e hnet hresp happ hexc
    simp only [SearchServiceStub._RemoteSend, hloc, hnet, hresp, happ, hexc]

/-- Witness for C9: the no-reply failure case on concrete inputs; the
response comes back exactly as passed in. -/
theorem remoteSend_failure_leaves_response_witness :
    (st1.datastore_location = some "appscale-host:8888" ∧
      netNone (buildApiRequest req0 "Search") (buildSendArgs "appscale-host:8888") = none) ∧
    st1._RemoteSend netNone req0 resp0 "Search" =
      (Except.error (PyError.nameError "datastore_errors"), resp0) :=
  ⟨⟨rfl, rfl⟩,
    (remoteSend_failure_leaves_response st1 netNone req0 resp0 "Search"
      "appscale-host:8888" rfl).1 rfl⟩

theorem getIndex_found (indexes : IndexMap) (cns : String) (spec : IndexSpec)
    (c : Bool) (inner : List (String × SimpleIndex)) (index : SimpleIndex)
    (hin : lookupA indexes (SearchServiceStub._GetNamespace cns spec.«namespace») = some inner)
    (hidx : lookupA inner spec.name = some index) :
    SearchServiceStub._GetIndex indexes cns spec c = (some index, indexes) := by
  simp only [SearchServiceStub._GetIndex, hin, Option.getD_some, Option.isSome_some,
    if_true, hidx]

theorem getIndex_create_isSome (indexes : IndexMap) (cns : String) (spec : IndexSpec) :
    ((SearchServiceStub._GetIndex indexes cns spec true).1).isSome = true := by
  unfold SearchServiceStub._GetIndex
  dsimp only
  split <;> rfl

theorem getIndex_mem_after (indexes : IndexMap) (cns : String) (spec : IndexSpec)
    (index : SimpleIndex)
    (h : (SearchServiceStub._GetIndex indexes cns spec true).1 = some index) :
    ∃ inner, lookupA (SearchServiceStub._GetIndex indexes cns spec true).2
        (SearchServiceStub._GetNamespace cns spec.«namespace») = some inner ∧
      lookupA inner spec.name = some index := by
  unfold SearchServiceStub._GetIndex at h ⊢
  cases hns : lookupA indexes (SearchServiceStub._GetNamespace cns spec.«namespace») with
  | some inner0 =>
    simp only [hns, Option.getD_some, Option.isSome_some, if_true] at h ⊢
    cases hl : lookupA inner0 spec.name with
    | some i =>
      simp only [hl] at h ⊢
      exact ⟨inner0, hns, by rw [hl, h]⟩
    | none =>
      simp only [hl, if_true] at h ⊢
      refine ⟨insertA inner0 spec.name ⟨spec⟩, lookupA_insertA_self _ _ _, ?_⟩
      have h2 : index = ⟨spec⟩ := by have h3 := h; simp at h3; exact h3.symm
      rw [lookupA_insertA_self, h2]
  | none =>
    simp only [hns, Option.getD_none, Option.isSome_none, Bool.false_eq_true, if_false,
      lookupA, if_true] at h ⊢
    refine ⟨insertA [] spec.name ⟨spec⟩, lookupA_insertA_self _ _ _, ?_⟩
    have h2 : index = ⟨spec⟩ := by have h3 := h; simp at h3; exact h3.symm
    rw [lookupA_insertA_self, h2]

/-- C6: the cache is keyed by namespace then index name.  `_GetNamespace`
resolves a non-None request namespace to itself and `None` to the current
global namespace; `_GetIndex` looks up `__indexes[namespace][name]`; with
`create` a missing entry is created as a `SimpleIndex` of the spec and
stored, so two `_GetIndex` calls resolving to the same namespace and name
return the same handle. -/
theorem getIndex_namespace_name_keying
    (indexes : IndexMap) (cns : String) (specA specB : IndexSpec) (c : Bool)
    (hns : SearchServiceStub._GetNamespace cns specA.«namespace» =
      SearchServiceStub._GetNamespace cns specB.«namespace»)
    (hname : specA.name = specB.name) :
    (∀ n : String, SearchServiceStub._GetNamespace cns (some n) = n) ∧
    SearchServiceStub._GetNamespace cns none = cns ∧
    (lookupA ((lookupA indexes (SearchServiceStub._GetNamespace cns specA.«namespace»)).getD [])
        specA.name = none →
      (SearchServiceStub._GetIndex indexes cns specA true).1 = some ⟨specA⟩) ∧
    ∃ index : SimpleIndex,
      (SearchServiceStub._GetIndex indexes cns specA true).1 = some index ∧
      (SearchServiceStub._GetIndex (SearchServiceStub._GetIndex indexes cns specA true).2
        cns specB c).1 = some index := by
  refine ⟨fun n => rfl, rfl, ?_, ?_⟩
  · intro hmiss
    simp [SearchServiceStub._GetIndex, hmiss]
  · obtain ⟨index, h⟩ := Option.isSome_iff_exists.mp (getIndex_create_isSome indexes cns specA)
    obtain ⟨inner, hin, hidx⟩ := getIndex_mem_after indexes cns specA index h
    have hin2 : lookupA (SearchServiceStub._GetIndex indexes cns specA true).2
        (SearchServiceStub._GetNamespace cns specB.«namespace») = some inner := by
      rw [← hns]; exact hin
    have hidx2 : lookupA inner specB.name = some index := by
      rw [← hname]; exact hidx
    exact ⟨index, h, by rw [getIndex_found _ cns specB c inner index hin2 hidx2]⟩

/-- Witness for C6: an empty cache, a spec with no namespace against the
current global namespace `"curns"`, and a second spec naming that
namespace explicitly. -/
theorem getIndex_namespace_name_keying_witness :
    (SearchServiceStub._GetNamespace "curns" (IndexSpec.mk "myindex" none).«namespace» =
      SearchServiceStub._GetNamespace "curns" (IndexSpec.mk "myindex" (some "curns")).«namespace» ∧
      (IndexSpec.mk "myindex" none).name = (IndexSpec.mk "myindex" (some "curns")).name) ∧
    ∃ index : SimpleIndex,
      (SearchServiceStub._GetIndex [] "curns" (IndexSpec.mk "myindex" none) true).1 = some index ∧
      (SearchServiceStub._GetIndex
        (SearchServiceStub._GetIndex [] "curns" (IndexSpec.mk "myindex" none) true).2
        "curns" (IndexSpec.mk "myindex" (some "curns")) false).1 = some index :=
  ⟨⟨rfl, rfl⟩,
    (getIndex_namespace_name_keying [] "curns" (IndexSpec.mk "myindex" none)
      (IndexSpec.mk "myindex" (some "curns")) false rfl rfl).2.2.2⟩
